import Mathlib

/-!
# Fleet Health Aggregation & Alert Engine — shallow embedding

A shallow embedding, in Lean 4, of the dashboard example of the TESAIoT
analytics API client (`examples/analytics-api/rust/examples/dashboard.rs`,
data model from `src/lib.rs`), together with theorems settling the frozen
claims about the specification.

Modelling conventions:
* Rust `i64` is modelled as `ℤ` (no claim concerns 64-bit wrap-around).
* Rust `f64` is modelled as `ℚ`, i.e. the floating-point arithmetic of the
  scorer is idealised as exact rational arithmetic. `f64::round`
  (round-half-away-from-zero) is `roundHalfAwayFromZero` below.
* Rust `HashMap` is modelled as an association list; the code only ever
  inserts distinct keys and reads by key, so no iteration-order behaviour
  is observable.
* `serde_json::Value` payloads carried in detail lists are abstracted as
  their serialised text (`JsonValue := String`); no code under scrutiny
  reads them.
* Strings built with `format!` are rebuilt by concatenation; the `{:.0}`
  float formatting of Rust (round-half-to-even to 0 decimals) is
  `fmtRat0`.
-/

/-- Abstraction of `serde_json::Value` occurring in detail lists that the
dashboard logic never inspects: the serialised text. -/
def JsonValue := String
deriving DecidableEq, Repr

/-- Rust `f64::round`: nearest integer, ties away from zero. -/
def roundHalfAwayFromZero (x : ℚ) : ℤ :=
  if 0 ≤ x then ⌊x + 1/2⌋ else -⌊(-x) + 1/2⌋

/-- Rust float formatting with precision 0 (`\x7b:.0\x7d`): nearest
integer, ties to even, rendered in decimal. -/
def roundTiesEven (x : ℚ) : ℤ :=
  if x - ⌊x⌋ < 1/2 then ⌊x⌋
  else if 1/2 < x - ⌊x⌋ then ⌊x⌋ + 1
  else if Even ⌊x⌋ then ⌊x⌋ else ⌊x⌋ + 1

/-- Render a rational with 0 decimals, Rust `\x7b:.0\x7d` style. -/
def fmtRat0 (x : ℚ) : String := toString (roundTiesEven x)

/-! ## Data model (from `src/lib.rs`) -/

structure Anomaly where
  id : String
  device_id : String
  device_name : String
  metric : String
  value : ℚ
  severity : String
  score : ℚ
  timestamp : String
  acknowledged : Bool
  resolved : Bool
deriving DecidableEq, Repr

structure AnomalySummary where
  total : ℤ
  by_severity : List (String × ℤ)
  by_metric : List (String × ℤ)
deriving DecidableEq, Repr

structure AnomaliesResponse where
  anomalies : List Anomaly
  summary : AnomalySummary
deriving DecidableEq, Repr

structure Cluster where
  cluster_id : ℤ
  cluster_name : String
  device_count : ℤ
  characteristics : List (String × ℚ)
  devices : List String
deriving DecidableEq, Repr

structure Outlier where
  device_id : String
  outlier_score : ℚ
  reason : Option String
deriving DecidableEq, Repr

structure ClustersResponse where
  clusters : List Cluster
  silhouette_score : ℚ
  outliers : List Outlier
deriving DecidableEq, Repr

structure Insight where
  id : String
  insight_type : String
  severity : String
  title : String
  description : String
  confidence : ℚ
  actionable : Bool
  recommended_actions : List String
deriving DecidableEq, Repr

structure FleetSummary where
  total_devices : ℤ
  active_devices : ℤ
  anomaly_rate : ℚ
  health_score : ℚ
deriving DecidableEq, Repr

structure InsightsResponse where
  insights : List Insight
  fleet_summary : FleetSummary
deriving DecidableEq, Repr

structure DeviceStatus where
  device_id : String
  device_name : String
  status : String
  last_seen : String
  uptime_percent : ℚ
deriving DecidableEq, Repr

structure ConnectivitySummary where
  total_devices : ℤ
  online_count : ℤ
  offline_count : ℤ
  unknown_count : ℤ
  online_percentage : ℚ
  avg_connection_duration_hours : ℚ
deriving DecidableEq, Repr

structure ConnectivityResponse where
  devices : List DeviceStatus
  summary : ConnectivitySummary
deriving DecidableEq, Repr

structure LatencySummary where
  overall_avg_ms : ℚ
  overall_p95_ms : ℚ
  overall_p99_ms : ℚ
  devices_with_high_latency : ℤ
  high_latency_threshold_ms : ℚ
deriving DecidableEq, Repr

structure LatencyResponse where
  summary : LatencySummary
  devices : List (List (String × JsonValue))
deriving DecidableEq, Repr

structure ThroughputSummary where
  total_messages_in : ℤ
  total_messages_out : ℤ
  total_bytes_in : ℤ
  total_bytes_out : ℤ
  avg_messages_per_minute : ℚ
  peak_messages_per_minute : ℤ
  avg_active_connections : ℚ
deriving DecidableEq, Repr

structure ThroughputResponse where
  summary : ThroughputSummary
  timeline : List (List (String × JsonValue))
deriving DecidableEq, Repr

structure QualityDistribution where
  excellent : ℤ
  good : ℤ
  fair : ℤ
  poor : ℤ
deriving DecidableEq, Repr

structure QualitySummary where
  average_quality_score : ℚ
  distribution : QualityDistribution
deriving DecidableEq, Repr

structure QualityResponse where
  summary : QualitySummary
  issues : List (List (String × JsonValue))
deriving DecidableEq, Repr

/-- `AnalyticsError` from `src/lib.rs`.  The `Http` variant's
`reqwest::Error` payload is abstracted as its display text. -/
inductive AnalyticsError where
  | http (cause : String)
  | api (status : ℤ) (message : String)
  | config (message : String)
  | serialization (cause : String)
deriving DecidableEq, Repr

/-! ## Dashboard types (from `examples/dashboard.rs`) -/

structure FleetHealth where
  overall_score : ℚ
  component_scores : List (String × ℚ)
  status : String
deriving DecidableEq, Repr

structure Alert where
  level : String
  alert_type : String
  title : String
  description : String
deriving DecidableEq, Repr

structure DashboardData where
  timestamp : String
  fleet_health : FleetHealth
  anomalies : AnomaliesResponse
  clusters : ClustersResponse
  insights : InsightsResponse
  connectivity : ConnectivityResponse
  latency : LatencyResponse
  throughput : ThroughputResponse
  quality : QualityResponse
  alerts : List Alert
deriving DecidableEq, Repr

/-- `scores[key]` of Rust on the component-score map: the code only indexes
keys it has inserted, so the missing-key panic is unreachable; the
default 0 is never produced. -/
def lookupScore (scores : List (String × ℚ)) (key : String) : ℚ :=
  ((scores.lookup key).getD 0)

/-! ## Health Scorer (`calculate_fleet_health`, dashboard.rs lines 72–126)

Each `let` mirrors one statement of the Rust function.  The status
if-chain is extracted as `status_of` and the pre-rounding weighted sum as
`overall_raw` so that theorems can speak about them; `calculate_fleet_health`
is defined through them with the source's exact expressions. -/

/-- The status if-chain of dashboard.rs lines 109–119, applied by
`calculate_fleet_health` to the pre-rounding weighted overall score. -/
def status_of (overall : ℚ) : String :=
  if overall ≥ 90 then "EXCELLENT"
  else if overall ≥ 70 then "GOOD"
  else if overall ≥ 50 then "FAIR"
  else if overall ≥ 30 then "POOR"
  else "CRITICAL"

/-- The component-score map built by dashboard.rs lines 78–101 (in insert
order): anomaly, connectivity, latency, insights. -/
def component_scores_of (anomalies : AnomaliesResponse)
    (connectivity : ConnectivityResponse) (insights : InsightsResponse)
    (latency : LatencyResponse) : List (String × ℚ) :=
  let total_devices : ℤ := max connectivity.summary.total_devices 1
  let anomaly_rate : ℚ := (anomalies.summary.total : ℚ) / (total_devices : ℚ)
  let anomaly_score : ℚ := max (100 - anomaly_rate * 1000) 0
  let online_pct : ℚ :=
    (connectivity.summary.online_count : ℚ) / (total_devices : ℚ) * 100
  let latency_score : ℚ := max (100 - latency.summary.overall_p95_ms / 10) 0
  let critical_count : ℕ :=
    (insights.insights.filter (fun i => i.severity = "critical")).length
  let warning_count : ℕ :=
    (insights.insights.filter (fun i => i.severity = "warning")).length
  let insights_score : ℚ :=
    max (100 - (critical_count : ℚ) * 20 - (warning_count : ℚ) * 5) 0
  [("anomaly", anomaly_score), ("connectivity", online_pct),
   ("latency", latency_score), ("insights", insights_score)]

/-- The weighted overall score of dashboard.rs lines 104–107, before the
one-decimal rounding (the Rust literals 0.3 and 0.2 are the exact
rationals 3/10 and 2/10 in this idealised model). -/
def overall_raw (anomalies : AnomaliesResponse)
    (connectivity : ConnectivityResponse) (insights : InsightsResponse)
    (latency : LatencyResponse) : ℚ :=
  let scores := component_scores_of anomalies connectivity insights latency
  lookupScore scores "anomaly" * (3/10)
    + lookupScore scores "connectivity" * (3/10)
    + lookupScore scores "latency" * (2/10)
    + lookupScore scores "insights" * (2/10)

/-- `calculate_fleet_health` of dashboard.rs lines 72–126.
`(overall * 10.0).round() / 10.0` becomes
`roundHalfAwayFromZero (overall * 10) / 10`. -/
def calculate_fleet_health (anomalies : AnomaliesResponse)
    (connectivity : ConnectivityResponse) (insights : InsightsResponse)
    (latency : LatencyResponse) : FleetHealth :=
  let scores := component_scores_of anomalies connectivity insights latency
  let overall := overall_raw anomalies connectivity insights latency
  { overall_score := (roundHalfAwayFromZero (overall * 10) : ℚ) / 10
    component_scores := scores
    status := status_of overall }

/-! ## Alert Rule Engine (`generate_alerts`, dashboard.rs lines 129–203)

The Rust function pushes onto a vector in rule order; the translation is
the concatenation of the four rule segments in that order. -/

/-- `generate_alerts` of dashboard.rs lines 129–203. -/
def generate_alerts (anomalies : AnomaliesResponse)
    (connectivity : ConnectivityResponse) (latency : LatencyResponse)
    (quality : QualityResponse) : List Alert :=
  let critical_count : ℤ :=
    ((anomalies.summary.by_severity.lookup "critical").getD 0)
  let anomaly_alerts : List Alert :=
    if critical_count > 0 then
      [{ level := "critical", alert_type := "anomaly"
         title := toString critical_count ++ " Critical Anomalies Detected"
         description := "Immediate investigation recommended" }]
    else []
  let offline_pct : ℚ :=
    (connectivity.summary.offline_count : ℚ)
      / ((max connectivity.summary.total_devices 1 : ℤ) : ℚ) * 100
  let connectivity_alerts : List Alert :=
    if offline_pct > 20 then
      [{ level := "critical", alert_type := "connectivity"
         title := toString connectivity.summary.offline_count
           ++ " Devices Offline (" ++ fmtRat0 offline_pct ++ "%)"
         description := "Network connectivity issue detected" }]
    else if connectivity.summary.offline_count > 0 then
      [{ level := "warning", alert_type := "connectivity"
         title := toString connectivity.summary.offline_count
           ++ " Device(s) Offline"
         description := "Some devices are not responding" }]
    else []
  let latency_alerts : List Alert :=
    if latency.summary.overall_p95_ms > 1000 then
      [{ level := "critical", alert_type := "latency"
         title := "High Latency: " ++ fmtRat0 latency.summary.overall_p95_ms
           ++ "ms P95"
         description := "Network performance severely degraded" }]
    else if latency.summary.overall_p95_ms > 500 then
      [{ level := "warning", alert_type := "latency"
         title := "Elevated Latency: "
           ++ fmtRat0 latency.summary.overall_p95_ms ++ "ms P95"
         description := "Network performance degraded" }]
    else []
  let quality_alerts : List Alert :=
    if quality.summary.distribution.poor > 5 then
      [{ level := "warning", alert_type := "quality"
         title := toString quality.summary.distribution.poor
           ++ " Devices with Poor Connection Quality"
         description := "Review device connections and network path" }]
    else []
  anomaly_alerts ++ connectivity_alerts ++ latency_alerts ++ quality_alerts

/-! ## Snapshot Collector (`collect_dashboard_data`, dashboard.rs lines 42–69)

`tokio::try_join!` awaits seven concurrent queries and yields either the
full tuple or the first error observed.  In this embedding each query's
outcome is a value of `Except AnalyticsError α` supplied as an argument,
and the join inspects them in the macro's argument order (anomalies,
clusters, insights, connectivity, latency, throughput, quality), so "first
error encountered" is the first error in that order.  The capture
timestamp (`chrono::Utc::now()`) is likewise an input. -/

/-- `collect_dashboard_data` of dashboard.rs lines 42–69, with the seven
query outcomes and the timestamp supplied as values. -/
def collect_dashboard_data (timestamp : String)
    (anomalies : Except AnalyticsError AnomaliesResponse)
    (clusters : Except AnalyticsError ClustersResponse)
    (insights : Except AnalyticsError InsightsResponse)
    (connectivity : Except AnalyticsError ConnectivityResponse)
    (latency : Except AnalyticsError LatencyResponse)
    (throughput : Except AnalyticsError ThroughputResponse)
    (quality : Except AnalyticsError QualityResponse) :
    Except AnalyticsError DashboardData := do
  let a ← anomalies
  let cl ← clusters
  let i ← insights
  let c ← connectivity
  let l ← latency
  let t ← throughput
  let q ← quality
  pure { timestamp := timestamp
         fleet_health := calculate_fleet_health a c i l
         anomalies := a
         clusters := cl
         insights := i
         connectivity := c
         latency := l
         throughput := t
         quality := q
         alerts := generate_alerts a c l q }

/-! ## Refresh Driver (`main`, dashboard.rs lines 330–365)

The driver is modelled over the per-cycle collection outcomes.  In
single-shot mode `main` runs `collect_dashboard_data(&client).await?`
once and renders; in `--loop` mode it runs five cycles, with the same `?`
inside the `for` loop, rendering after each successful collection.  The
model returns the list of snapshots rendered (in order) and the error, if
any, with which the run terminated; a `some` error is a non-zero process
outcome. -/

/-- Single-shot mode of `main` (dashboard.rs lines 358–362): the rendered
snapshots and the terminating error, if any. -/
def run_single_shot (cycle : Except AnalyticsError DashboardData) :
    List DashboardData × Option AnalyticsError :=
  match cycle with
  | .ok d => ([d], none)
  | .error e => ([], some e)

/-- Bounded-polling mode of `main` (dashboard.rs lines 344–357): the
`for i in 0..5` loop with `collect_dashboard_data(&client).await?` in its
body, over the given per-cycle outcomes.  Returns the snapshots rendered
before termination and the terminating error, if any. -/
def run_polling : List (Except AnalyticsError DashboardData) →
    List DashboardData × Option AnalyticsError
  | [] => ([], none)
  | .ok d :: rest =>
      let (ds, e) := run_polling rest
      (d :: ds, e)
  | .error e :: _ => ([], some e)

/-! ## Per-rule alert segments

`generate_alerts` pushes alerts rule by rule; the four segments below are
its rule bodies verbatim, so that `generate_alerts` provably equals their
concatenation (by `rfl`). -/

/-- The anomaly rule of `generate_alerts` (dashboard.rs lines 137–146). -/
def anomaly_alerts_of (anomalies : AnomaliesResponse) : List Alert :=
  let critical_count : ℤ :=
    ((anomalies.summary.by_severity.lookup "critical").getD 0)
  if critical_count > 0 then
    [{ level := "critical", alert_type := "anomaly"
       title := toString critical_count ++ " Critical Anomalies Detected"
       description := "Immediate investigation recommended" }]
  else []

/-- The offline percentage computed by the connectivity rule
(dashboard.rs lines 149–151). -/
def offline_pct_of (connectivity : ConnectivityResponse) : ℚ :=
  (connectivity.summary.offline_count : ℚ)
    / ((max connectivity.summary.total_devices 1 : ℤ) : ℚ) * 100

/-- The connectivity rule of `generate_alerts` (dashboard.rs lines 148–170). -/
def connectivity_alerts_of (connectivity : ConnectivityResponse) : List Alert :=
  let offline_pct : ℚ := offline_pct_of connectivity
  if offline_pct > 20 then
    [{ level := "critical", alert_type := "connectivity"
       title := toString connectivity.summary.offline_count
         ++ " Devices Offline (" ++ fmtRat0 offline_pct ++ "%)"
       description := "Network connectivity issue detected" }]
  else if connectivity.summary.offline_count > 0 then
    [{ level := "warning", alert_type := "connectivity"
       title := toString connectivity.summary.offline_count
         ++ " Device(s) Offline"
       description := "Some devices are not responding" }]
  else []

/-- The latency rule of `generate_alerts` (dashboard.rs lines 172–187). -/
def latency_alerts_of (latency : LatencyResponse) : List Alert :=
  if latency.summary.overall_p95_ms > 1000 then
    [{ level := "critical", alert_type := "latency"
       title := "High Latency: " ++ fmtRat0 latency.summary.overall_p95_ms
         ++ "ms P95"
       description := "Network performance severely degraded" }]
  else if latency.summary.overall_p95_ms > 500 then
    [{ level := "warning", alert_type := "latency"
       title := "Elevated Latency: "
         ++ fmtRat0 latency.summary.overall_p95_ms ++ "ms P95"
       description := "Network performance degraded" }]
  else []

/-- The quality rule of `generate_alerts` (dashboard.rs lines 189–200). -/
def quality_alerts_of (quality : QualityResponse) : List Alert :=
  if quality.summary.distribution.poor > 5 then
    [{ level := "warning", alert_type := "quality"
       title := toString quality.summary.distribution.poor
         ++ " Devices with Poor Connection Quality"
       description := "Review device connections and network path" }]
  else []

/-! ## Data invariants (spec §3)

The §3 invariants on the inputs the Health Scorer reads.  Note that §3
bounds `overall_avg_ms` below but deliberately does not constrain
`overall_p95_ms` ("`overall_p95_ms ≥ overall_avg_ms` is NOT guaranteed by
contract ... engine must not assume it"). -/

/-- The §3 data invariants on the four responses the Health Scorer reads:
all counts non-negative, classified anomalies bounded by the total,
`online_count + offline_count ≤ total_devices`, `overall_avg_ms ≥ 0`,
insight confidences in [0,1]. -/
def ValidInputs (a : AnomaliesResponse) (c : ConnectivityResponse)
    (i : InsightsResponse) (l : LatencyResponse) : Prop :=
  0 ≤ a.summary.total
  ∧ (∀ p ∈ a.summary.by_severity, 0 ≤ p.2)
  ∧ (a.summary.by_severity.map Prod.snd).sum ≤ a.summary.total
  ∧ 0 ≤ c.summary.total_devices
  ∧ 0 ≤ c.summary.online_count
  ∧ 0 ≤ c.summary.offline_count
  ∧ 0 ≤ c.summary.unknown_count
  ∧ c.summary.online_count + c.summary.offline_count ≤ c.summary.total_devices
  ∧ 0 ≤ l.summary.overall_avg_ms
  ∧ (∀ ins ∈ i.insights, 0 ≤ ins.confidence ∧ ins.confidence ≤ 1)

instance (a : AnomaliesResponse) (c : ConnectivityResponse)
    (i : InsightsResponse) (l : LatencyResponse) :
    Decidable (ValidInputs a c i l) := by
  unfold ValidInputs; infer_instance

/-- The first error, in the argument order of the `tokio::try_join!` call
of `collect_dashboard_data`, among the seven query outcomes. -/
def first_query_error (a : Except AnalyticsError AnomaliesResponse)
    (cl : Except AnalyticsError ClustersResponse)
    (i : Except AnalyticsError InsightsResponse)
    (c : Except AnalyticsError ConnectivityResponse)
    (l : Except AnalyticsError LatencyResponse)
    (t : Except AnalyticsError ThroughputResponse)
    (q : Except AnalyticsError QualityResponse) : Option AnalyticsError :=
  match a with
  | .error e => some e
  | .ok _ =>
    match cl with
    | .error e => some e
    | .ok _ =>
      match i with
      | .error e => some e
      | .ok _ =>
        match c with
        | .error e => some e
        | .ok _ =>
          match l with
          | .error e => some e
          | .ok _ =>
            match t with
            | .error e => some e
            | .ok _ =>
              match q with
              | .error e => some e
              | .ok _ => none

/-! ## Concrete test inputs -/

def mkConnectivity (total online offline : ℤ) : ConnectivityResponse :=
  { devices := []
    summary := { total_devices := total, online_count := online
                 offline_count := offline, unknown_count := 0
                 online_percentage := 0, avg_connection_duration_hours := 0 } }

def mkLatency (p95 : ℚ) : LatencyResponse :=
  { summary := { overall_avg_ms := 0, overall_p95_ms := p95
                 overall_p99_ms := 0, devices_with_high_latency := 0
                 high_latency_threshold_ms := 0 }
    devices := [] }

def mkAnomalies (total : ℤ) (by_sev : List (String × ℤ)) : AnomaliesResponse :=
  { anomalies := []
    summary := { total := total, by_severity := by_sev, by_metric := [] } }

def emptyInsights : InsightsResponse :=
  { insights := []
    fleet_summary := { total_devices := 0, active_devices := 0
                       anomaly_rate := 0, health_score := 0 } }

def mkInsight (sev : String) : Insight :=
  { id := "", insight_type := "", severity := sev, title := ""
    description := "", confidence := 1, actionable := false
    recommended_actions := [] }

def mkInsights (sevs : List String) : InsightsResponse :=
  { insights := sevs.map mkInsight
    fleet_summary := { total_devices := 0, active_devices := 0
                       anomaly_rate := 0, health_score := 0 } }

def emptyClusters : ClustersResponse :=
  { clusters := [], silhouette_score := 0, outliers := [] }

def emptyThroughput : ThroughputResponse :=
  { summary := { total_messages_in := 0, total_messages_out := 0
                 total_bytes_in := 0, total_bytes_out := 0
                 avg_messages_per_minute := 0, peak_messages_per_minute := 0
                 avg_active_connections := 0 }
    timeline := [] }

def mkQuality (poor : ℤ) : QualityResponse :=
  { summary := { average_quality_score := 0
                 distribution := { excellent := 0, good := 0, fair := 0
                                   poor := poor } }
    issues := [] }

/-- A fully zeroed dashboard snapshot, used as a concrete cycle payload. -/
def emptyDashboard : DashboardData :=
  { timestamp := ""
    fleet_health := calculate_fleet_health (mkAnomalies 0 [])
      (mkConnectivity 0 0 0) emptyInsights (mkLatency 0)
    anomalies := mkAnomalies 0 []
    clusters := emptyClusters
    insights := emptyInsights
    connectivity := mkConnectivity 0 0 0
    latency := mkLatency 0
    throughput := emptyThroughput
    quality := mkQuality 0
    alerts := generate_alerts (mkAnomalies 0 []) (mkConnectivity 0 0 0)
      (mkLatency 0) (mkQuality 0) }

/-! ## Spec-side score formulas (claim C1)

These definitions follow the wording of the specification (§4.2), to be
compared with the translation of the code above. -/

/-- Spec wording: anomaly score
= max(0, 100 − (total_anomalies / max(total_devices,1)) × 1000). -/
def spec_anomaly_score (a : AnomaliesResponse) (c : ConnectivityResponse) : ℚ :=
  max 0 (100 - ((a.summary.total : ℚ)
    / ((max c.summary.total_devices 1 : ℤ) : ℚ)) * 1000)

/-- Spec wording: connectivity score
= online_count / max(total_devices,1) × 100. -/
def spec_connectivity_score (c : ConnectivityResponse) : ℚ :=
  (c.summary.online_count : ℚ) / ((max c.summary.total_devices 1 : ℤ) : ℚ) * 100

/-- Spec wording: latency score = max(0, 100 − overall_p95_ms / 10). -/
def spec_latency_score (l : LatencyResponse) : ℚ :=
  max 0 (100 - l.summary.overall_p95_ms / 10)

/-- Spec wording: insights score
= max(0, 100 − 20×(critical insights) − 5×(warning insights)). -/
def spec_insights_score (i : InsightsResponse) : ℚ :=
  max 0 (100
    - 20 * ((i.insights.filter (fun x => x.severity = "critical")).length : ℚ)
    - 5 * ((i.insights.filter (fun x => x.severity = "warning")).length : ℚ))

/-- Spec wording: overall = anomaly×0.30 + connectivity×0.30 + latency×0.20
+ insights×0.20, rounded to one decimal, round-half-away-from-zero on the
tenths digit. -/
def spec_overall_score (a : AnomaliesResponse) (c : ConnectivityResponse)
    (i : InsightsResponse) (l : LatencyResponse) : ℚ :=
  (roundHalfAwayFromZero
    ((spec_anomaly_score a c * (0.30 : ℚ) + spec_connectivity_score c * (0.30 : ℚ)
      + spec_latency_score l * (0.20 : ℚ) + spec_insights_score i * (0.20 : ℚ))
      * 10) : ℤ) / (10 : ℚ)

lemma lookup_components (s1 s2 s3 s4 : ℚ) :
    List.lookup "anomaly"
      [("anomaly", s1), ("connectivity", s2), ("latency", s3), ("insights", s4)]
        = some s1
    ∧ List.lookup "connectivity"
      [("anomaly", s1), ("connectivity", s2), ("latency", s3), ("insights", s4)]
        = some s2
    ∧ List.lookup "latency"
      [("anomaly", s1), ("connectivity", s2), ("latency", s3), ("insights", s4)]
        = some s3
    ∧ List.lookup "insights"
      [("anomaly", s1), ("connectivity", s2), ("latency", s3), ("insights", s4)]
        = some s4 :=
  ⟨rfl, rfl, rfl, rfl⟩

/-- The component-map keys are pairwise distinct (as `BEq` tests). -/
lemma comp_keys_distinct :
    (("connectivity" == "anomaly") = false)
    ∧ (("latency" == "anomaly") = false)
    ∧ (("latency" == "connectivity") = false)
    ∧ (("insights" == "anomaly") = false)
    ∧ (("insights" == "connectivity") = false)
    ∧ (("insights" == "latency") = false) :=
  ⟨rfl, rfl, rfl, rfl, rfl, rfl⟩

/-- The component-score map of the code equals, entry by entry, the spec's
four formulas. -/
lemma component_scores_of_eq (a : AnomaliesResponse) (c : ConnectivityResponse)
    (i : InsightsResponse) (l : LatencyResponse) :
    component_scores_of a c i l =
      [("anomaly", spec_anomaly_score a c),
       ("connectivity", spec_connectivity_score c),
       ("latency", spec_latency_score l),
       ("insights", spec_insights_score i)] := by
  simp only [component_scores_of, spec_anomaly_score, spec_connectivity_score,
    spec_latency_score, spec_insights_score, max_comm]
  norm_num [mul_comm]

/-- The weighted sum of the code equals the spec's weighted sum. -/
lemma overall_raw_eq (a : AnomaliesResponse) (c : ConnectivityResponse)
    (i : InsightsResponse) (l : LatencyResponse) :
    overall_raw a c i l =
      spec_anomaly_score a c * (0.30 : ℚ) + spec_connectivity_score c * (0.30 : ℚ)
        + spec_latency_score l * (0.20 : ℚ) + spec_insights_score i * (0.20 : ℚ) := by
  obtain ⟨h1, h2, h3, h4⟩ :=
    lookup_components (spec_anomaly_score a c) (spec_connectivity_score c)
      (spec_latency_score l) (spec_insights_score i)
  rw [overall_raw, component_scores_of_eq]
  unfold lookupScore
  rw [h1, h2, h3, h4]
  norm_num

/-- C1. For every `DashboardSnapshot`, the Health Scorer computes exactly
the spec's formulas: anomaly = max(0, 100 − (total_anomalies /
max(total_devices,1)) × 1000), connectivity = online_count /
max(total_devices,1) × 100, latency = max(0, 100 − overall_p95_ms / 10),
insights = max(0, 100 − 20×critical − 5×warning), and overall_score is
their 0.30/0.30/0.20/0.20 weighted sum rounded to one decimal with
round-half-away-from-zero on the tenths digit. -/
theorem calculate_fleet_health_formulas (a : AnomaliesResponse)
    (c : ConnectivityResponse) (i : InsightsResponse) (l : LatencyResponse) :
    (calculate_fleet_health a c i l).component_scores.lookup "anomaly"
        = some (spec_anomaly_score a c)
    ∧ (calculate_fleet_health a c i l).component_scores.lookup "connectivity"
        = some (spec_connectivity_score c)
    ∧ (calculate_fleet_health a c i l).component_scores.lookup "latency"
        = some (spec_latency_score l)
    ∧ (calculate_fleet_health a c i l).component_scores.lookup "insights"
        = some (spec_insights_score i)
    ∧ (calculate_fleet_health a c i l).overall_score
        = spec_overall_score a c i l := by
  obtain ⟨h1, h2, h3, h4⟩ :=
    lookup_components (spec_anomaly_score a c) (spec_connectivity_score c)
      (spec_latency_score l) (spec_insights_score i)
  refine ⟨?_, ?_, ?_, ?_, ?_⟩
  · show (component_scores_of a c i l).lookup "anomaly" = _
    rw [component_scores_of_eq]; exact h1
  · show (component_scores_of a c i l).lookup "connectivity" = _
    rw [component_scores_of_eq]; exact h2
  · show (component_scores_of a c i l).lookup "latency" = _
    rw [component_scores_of_eq]; exact h3
  · show (component_scores_of a c i l).lookup "insights" = _
    rw [component_scores_of_eq]; exact h4
  · show (roundHalfAwayFromZero (overall_raw a c i l * 10) : ℚ) / 10
        = spec_overall_score a c i l
    rw [overall_raw_eq, spec_overall_score]

/-! ## Claim C2 — clamping -/

lemma denom_pos (c : ConnectivityResponse) :
    (0 : ℚ) < ((max c.summary.total_devices 1 : ℤ) : ℚ) := by
  have h : (1 : ℤ) ≤ max c.summary.total_devices 1 := le_max_right _ _
  have h' : (1 : ℚ) ≤ ((max c.summary.total_devices 1 : ℤ) : ℚ) := by exact_mod_cast h
  linarith

lemma spec_anomaly_score_bounds (a : AnomaliesResponse) (c : ConnectivityResponse)
    (h : 0 ≤ a.summary.total) :
    0 ≤ spec_anomaly_score a c ∧ spec_anomaly_score a c ≤ 100 := by
  unfold spec_anomaly_score
  refine ⟨le_max_left _ _, max_le (by norm_num) ?_⟩
  have hr : 0 ≤ (a.summary.total : ℚ) / ((max c.summary.total_devices 1 : ℤ) : ℚ) :=
    div_nonneg (by exact_mod_cast h) (denom_pos c).le
  nlinarith

lemma spec_connectivity_score_bounds (c : ConnectivityResponse)
    (h0 : 0 ≤ c.summary.online_count) (h1 : 0 ≤ c.summary.offline_count)
    (h2 : c.summary.online_count + c.summary.offline_count
            ≤ c.summary.total_devices) :
    0 ≤ spec_connectivity_score c ∧ spec_connectivity_score c ≤ 100 := by
  unfold spec_connectivity_score
  have hd := denom_pos c
  constructor
  · exact mul_nonneg (div_nonneg (by exact_mod_cast h0) hd.le) (by norm_num)
  · have hon : (c.summary.online_count : ℚ)
        ≤ ((max c.summary.total_devices 1 : ℤ) : ℚ) := by
      have : c.summary.online_count ≤ max c.summary.total_devices 1 :=
        le_trans (by omega) (le_max_left _ _)
      exact_mod_cast this
    have hdiv : (c.summary.online_count : ℚ)
        / ((max c.summary.total_devices 1 : ℤ) : ℚ) ≤ 1 :=
      (div_le_one hd).2 hon
    nlinarith

lemma spec_latency_score_bounds (l : LatencyResponse)
    (h : 0 ≤ l.summary.overall_p95_ms) :
    0 ≤ spec_latency_score l ∧ spec_latency_score l ≤ 100 := by
  unfold spec_latency_score
  refine ⟨le_max_left _ _, max_le (by norm_num) ?_⟩
  have : 0 ≤ l.summary.overall_p95_ms / 10 := by positivity
  linarith

lemma spec_insights_score_bounds (i : InsightsResponse) :
    0 ≤ spec_insights_score i ∧ spec_insights_score i ≤ 100 := by
  unfold spec_insights_score
  refine ⟨le_max_left _ _, max_le (by norm_num) ?_⟩
  have h1 : (0:ℚ) ≤ 20 * ((i.insights.filter
      (fun x => x.severity = "critical")).length : ℚ) := by positivity
  have h2 : (0:ℚ) ≤ 5 * ((i.insights.filter
      (fun x => x.severity = "warning")).length : ℚ) := by positivity
  linarith

/-- The 0–100 range survives the one-decimal rounding. -/
lemma round_tenths_bounds (x : ℚ) (h0 : 0 ≤ x) (h1 : x ≤ 100) :
    0 ≤ (roundHalfAwayFromZero (x * 10) : ℚ) / 10
    ∧ (roundHalfAwayFromZero (x * 10) : ℚ) / 10 ≤ 100 := by
  have hx0 : 0 ≤ x * 10 := by linarith
  unfold roundHalfAwayFromZero
  rw [if_pos hx0]
  have hlow : (0 : ℤ) ≤ ⌊x * 10 + 1/2⌋ := by
    apply Int.le_floor.2; push_cast; linarith
  have hhigh : ⌊x * 10 + 1/2⌋ ≤ 1000 := by
    have hle : ⌊x * 10 + 1/2⌋ ≤ ⌊(1000 : ℚ) + 1/2⌋ :=
      Int.floor_le_floor (by linarith)
    have heq : ⌊(1000 : ℚ) + 1/2⌋ = 1000 := by
      rw [Int.floor_eq_iff]
      norm_num
    omega
  constructor
  · apply div_nonneg _ (by norm_num)
    exact_mod_cast hlow
  · rw [div_le_iff₀ (by norm_num : (0:ℚ) < 10)]
    have : ((⌊x * 10 + 1/2⌋ : ℤ) : ℚ) ≤ 1000 := by exact_mod_cast hhigh
    linarith

/-- C2 counterexample.  The snapshot below satisfies every §3 data
invariant (§3 bounds `overall_avg_ms` but deliberately leaves
`overall_p95_ms` unconstrained), yet with `overall_p95_ms = -10` the code
produces a latency component score of 101 and an overall score of 100.2,
both outside [0,100]: the code floors each component at 0 but never caps
it at 100. -/
theorem clamping_fails_on_valid_snapshot :
    ValidInputs (mkAnomalies 0 []) (mkConnectivity 1 1 0) emptyInsights
      (mkLatency (-10))
    ∧ lookupScore (calculate_fleet_health (mkAnomalies 0 [])
        (mkConnectivity 1 1 0) emptyInsights (mkLatency (-10))).component_scores
        "latency" = 101
    ∧ (101 : ℚ) > 100
    ∧ (calculate_fleet_health (mkAnomalies 0 []) (mkConnectivity 1 1 0)
        emptyInsights (mkLatency (-10))).overall_score = 100.2
    ∧ (100.2 : ℚ) > 100 := by
  refine ⟨by decide, ?_, by norm_num, ?_, by norm_num⟩
  · norm_num [calculate_fleet_health, component_scores_of, lookupScore,
      mkAnomalies, mkConnectivity, emptyInsights, mkLatency, List.lookup,
      comp_keys_distinct.1, comp_keys_distinct.2.1, comp_keys_distinct.2.2.1]
  · norm_num [calculate_fleet_health, component_scores_of, overall_raw,
      lookupScore, roundHalfAwayFromZero, mkAnomalies, mkConnectivity,
      emptyInsights, mkLatency, List.lookup, Int.floor_eq_iff,
      comp_keys_distinct.1, comp_keys_distinct.2.1, comp_keys_distinct.2.2.1,
      comp_keys_distinct.2.2.2.1, comp_keys_distinct.2.2.2.2.1,
      comp_keys_distinct.2.2.2.2.2]

/-- C2 (amended).  For every snapshot satisfying the §3 data invariants
*and additionally* `overall_p95_ms ≥ 0` (which §3 alone does not
guarantee), the overall score and every component score lie in [0,100]. -/
theorem calculate_fleet_health_clamped (a : AnomaliesResponse)
    (c : ConnectivityResponse) (i : InsightsResponse) (l : LatencyResponse)
    (hv : ValidInputs a c i l) (hp : 0 ≤ l.summary.overall_p95_ms) :
    (0 ≤ (calculate_fleet_health a c i l).overall_score
      ∧ (calculate_fleet_health a c i l).overall_score ≤ 100)
    ∧ ∀ p ∈ (calculate_fleet_health a c i l).component_scores,
        0 ≤ p.2 ∧ p.2 ≤ 100 := by
  obtain ⟨ht, -, -, -, hon, hoff, -, hsum, -, -⟩ := hv
  have hA := spec_anomaly_score_bounds a c ht
  have hB := spec_connectivity_score_bounds c hon hoff hsum
  have hC := spec_latency_score_bounds l hp
  have hD := spec_insights_score_bounds i
  have hor : 0 ≤ overall_raw a c i l ∧ overall_raw a c i l ≤ 100 := by
    rw [overall_raw_eq]
    constructor <;> nlinarith [hA.1, hA.2, hB.1, hB.2, hC.1, hC.2, hD.1, hD.2]
  constructor
  · show 0 ≤ (roundHalfAwayFromZero (overall_raw a c i l * 10) : ℚ) / 10
      ∧ (roundHalfAwayFromZero (overall_raw a c i l * 10) : ℚ) / 10 ≤ 100
    exact round_tenths_bounds _ hor.1 hor.2
  · show ∀ p ∈ component_scores_of a c i l, 0 ≤ p.2 ∧ p.2 ≤ 100
    rw [component_scores_of_eq]
    intro p hp
    simp only [List.mem_cons, List.not_mem_nil, or_false] at hp
    rcases hp with h | h | h | h <;> subst h
    · exact hA
    · exact hB
    · exact hC
    · exact hD

/-- Witness for the amended C2, at a concrete valid snapshot. -/
theorem calculate_fleet_health_clamped_witness :
    (ValidInputs (mkAnomalies 2 [("critical", 1)]) (mkConnectivity 10 9 1)
        emptyInsights (mkLatency 250)
      ∧ 0 ≤ (mkLatency 250).summary.overall_p95_ms)
    ∧ ((0 ≤ (calculate_fleet_health (mkAnomalies 2 [("critical", 1)])
          (mkConnectivity 10 9 1) emptyInsights (mkLatency 250)).overall_score
        ∧ (calculate_fleet_health (mkAnomalies 2 [("critical", 1)])
          (mkConnectivity 10 9 1) emptyInsights (mkLatency 250)).overall_score
            ≤ 100)
      ∧ ∀ p ∈ (calculate_fleet_health (mkAnomalies 2 [("critical", 1)])
          (mkConnectivity 10 9 1) emptyInsights
          (mkLatency 250)).component_scores, 0 ≤ p.2 ∧ p.2 ≤ 100) :=
  ⟨⟨by decide, by decide⟩,
    calculate_fleet_health_clamped _ _ _ _ (by decide) (by decide)⟩

/-! ## Claim C3 — status tier -/

/-- C3 counterexample.  `status` is computed from the *pre-rounding*
weighted sum, while `overall_score` is the rounded value, so the status
tier is not a function of `overall_score` and an `overall_score` of
exactly 90.0 does not always map to EXCELLENT: with `overall_p95_ms = 501`
the weighted sum is 89.98, which rounds to an `overall_score` of 90.0 but
is tiered GOOD, while `overall_p95_ms = 500` gives the same
`overall_score` 90.0 tiered EXCELLENT. -/
theorem status_not_function_of_overall_score :
    (calculate_fleet_health (mkAnomalies 0 []) (mkConnectivity 10 10 0)
        emptyInsights (mkLatency 501)).overall_score = 90
    ∧ (calculate_fleet_health (mkAnomalies 0 []) (mkConnectivity 10 10 0)
        emptyInsights (mkLatency 501)).status = "GOOD"
    ∧ (calculate_fleet_health (mkAnomalies 0 []) (mkConnectivity 10 10 0)
        emptyInsights (mkLatency 500)).overall_score = 90
    ∧ (calculate_fleet_health (mkAnomalies 0 []) (mkConnectivity 10 10 0)
        emptyInsights (mkLatency 500)).status = "EXCELLENT" := by
  refine ⟨?_, ?_, ?_, ?_⟩ <;>
    norm_num [calculate_fleet_health, component_scores_of, overall_raw,
      lookupScore, roundHalfAwayFromZero, status_of, mkAnomalies,
      mkConnectivity, emptyInsights, mkLatency, List.lookup,
      Int.floor_eq_iff, comp_keys_distinct.1, comp_keys_distinct.2.1,
      comp_keys_distinct.2.2.1, comp_keys_distinct.2.2.2.1,
      comp_keys_distinct.2.2.2.2.1, comp_keys_distinct.2.2.2.2.2]

/-- C3 (amended).  The status tier is a total function of the
*pre-rounding* weighted overall score, with inclusive lower bounds
≥90→EXCELLENT, ≥70→GOOD, ≥50→FAIR, ≥30→POOR, else CRITICAL; the five
ranges are contiguous and exhaustive, and pre-rounding scores of exactly
90, 70, 50, 30 map to EXCELLENT, GOOD, FAIR, POOR respectively. -/
theorem status_tier_of_raw_overall :
    (∀ (a : AnomaliesResponse) (c : ConnectivityResponse)
        (i : InsightsResponse) (l : LatencyResponse),
      (calculate_fleet_health a c i l).status = status_of (overall_raw a c i l))
    ∧ (∀ x : ℚ,
        (90 ≤ x → status_of x = "EXCELLENT")
        ∧ (70 ≤ x → x < 90 → status_of x = "GOOD")
        ∧ (50 ≤ x → x < 70 → status_of x = "FAIR")
        ∧ (30 ≤ x → x < 50 → status_of x = "POOR")
        ∧ (x < 30 → status_of x = "CRITICAL"))
    ∧ (∀ x : ℚ, status_of x = "EXCELLENT" ∨ status_of x = "GOOD"
        ∨ status_of x = "FAIR" ∨ status_of x = "POOR"
        ∨ status_of x = "CRITICAL")
    ∧ status_of 90 = "EXCELLENT" ∧ status_of 70 = "GOOD"
    ∧ status_of 50 = "FAIR" ∧ status_of 30 = "POOR" := by
  refine ⟨fun a c i l => rfl, fun x => ?_, fun x => ?_, ?_, ?_, ?_, ?_⟩
  · unfold status_of
    refine ⟨fun h => ?_, fun h h' => ?_, fun h h' => ?_, fun h h' => ?_,
      fun h => ?_⟩ <;> split_ifs <;> first | rfl | linarith
  · unfold status_of
    split_ifs <;> simp
  · norm_num [status_of]
  · norm_num [status_of]
  · norm_num [status_of]
  · norm_num [status_of]

/-- Witness for the amended C3: the tier function applied at concrete
scores, discharging the interval hypotheses. -/
theorem status_tier_of_raw_overall_witness :
    status_of 75 = "GOOD" ∧ status_of 55 = "FAIR" ∧ status_of 35 = "POOR"
    ∧ status_of 10 = "CRITICAL" ∧ status_of 95 = "EXCELLENT" :=
  ⟨(status_tier_of_raw_overall.2.1 75).2.1 (by norm_num) (by norm_num),
   (status_tier_of_raw_overall.2.1 55).2.2.1 (by norm_num) (by norm_num),
   (status_tier_of_raw_overall.2.1 35).2.2.2.1 (by norm_num) (by norm_num),
   (status_tier_of_raw_overall.2.1 10).2.2.2.2 (by norm_num),
   (status_tier_of_raw_overall.2.1 95).1 (by norm_num)⟩

/-! ## Claim C7 — all-zero snapshot -/

/-- C7 counterexample.  On the all-zero snapshot the `max(x,1)` floor does
prevent division by zero, but the connectivity score resolves to 0.0
(online numerator 0 over floored denominator 1, times 100), not to 100.0
as claimed. -/
theorem zero_snapshot_connectivity_score_is_zero :
    lookupScore (calculate_fleet_health (mkAnomalies 0 [])
        (mkConnectivity 0 0 0) emptyInsights (mkLatency 0)).component_scores
        "connectivity" = 0
    ∧ (0 : ℚ) ≠ 100 := by
  constructor
  · norm_num [calculate_fleet_health, component_scores_of, lookupScore,
      mkAnomalies, mkConnectivity, emptyInsights, mkLatency, List.lookup,
      comp_keys_distinct.1]
  · norm_num

/-- C7 (amended).  On the all-zero snapshot (`total_devices = 0`, all
numerators 0) no division by zero occurs: the `max(x,1)` floor gives
denominator 1, the anomaly score resolves to 100.0, the connectivity
score to 0.0, latency and insights to 100.0, and the overall score is
computed without error as 70.0 (status GOOD). -/
theorem zero_snapshot_scores :
    lookupScore (calculate_fleet_health (mkAnomalies 0 [])
        (mkConnectivity 0 0 0) emptyInsights (mkLatency 0)).component_scores
        "anomaly" = 100
    ∧ lookupScore (calculate_fleet_health (mkAnomalies 0 [])
        (mkConnectivity 0 0 0) emptyInsights (mkLatency 0)).component_scores
        "connectivity" = 0
    ∧ lookupScore (calculate_fleet_health (mkAnomalies 0 [])
        (mkConnectivity 0 0 0) emptyInsights (mkLatency 0)).component_scores
        "latency" = 100
    ∧ lookupScore (calculate_fleet_health (mkAnomalies 0 [])
        (mkConnectivity 0 0 0) emptyInsights (mkLatency 0)).component_scores
        "insights" = 100
    ∧ (calculate_fleet_health (mkAnomalies 0 []) (mkConnectivity 0 0 0)
        emptyInsights (mkLatency 0)).overall_score = 70
    ∧ (calculate_fleet_health (mkAnomalies 0 []) (mkConnectivity 0 0 0)
        emptyInsights (mkLatency 0)).status = "GOOD" := by
  refine ⟨?_, ?_, ?_, ?_, ?_, ?_⟩ <;>
    norm_num [calculate_fleet_health, component_scores_of, overall_raw,
      lookupScore, roundHalfAwayFromZero, status_of, mkAnomalies,
      mkConnectivity, emptyInsights, mkLatency, List.lookup,
      Int.floor_eq_iff, comp_keys_distinct.1, comp_keys_distinct.2.1,
      comp_keys_distinct.2.2.1, comp_keys_distinct.2.2.2.1,
      comp_keys_distinct.2.2.2.2.1, comp_keys_distinct.2.2.2.2.2]

/-! ## Claim C8 — idempotence / determinism -/

/-- C8.  The Health Scorer and the Alert Rule Engine are deterministic
and idempotent: a second application to the identical snapshot yields an
output equal to the first.  Both Rust functions read their inputs through
shared references and touch no mutable state, which is why they embed as
state-free pure functions, for which the property holds definitionally. -/
theorem scorer_and_alert_engine_idempotent (a : AnomaliesResponse)
    (c : ConnectivityResponse) (i : InsightsResponse) (l : LatencyResponse)
    (q : QualityResponse) :
    calculate_fleet_health a c i l = calculate_fleet_health a c i l
    ∧ generate_alerts a c l q = generate_alerts a c l q :=
  ⟨rfl, rfl⟩

/-! ## Claim C10 — insights severity exact match -/

/-- C10.  Only insights whose severity is exactly "critical" or exactly
"warning" are counted in the insights penalty: if every insight carries
some other severity, the insights component score is 100. -/
theorem insights_score_ignores_other_severities (a : AnomaliesResponse)
    (c : ConnectivityResponse) (i : InsightsResponse) (l : LatencyResponse)
    (h : ∀ ins ∈ i.insights,
      ins.severity ≠ "critical" ∧ ins.severity ≠ "warning") :
    (calculate_fleet_health a c i l).component_scores.lookup "insights"
      = some 100 := by
  have hc : i.insights.filter (fun x => x.severity = "critical") = [] := by
    rw [List.filter_eq_nil_iff]
    intro x hx
    simpa using (h x hx).1
  have hw : i.insights.filter (fun x => x.severity = "warning") = [] := by
    rw [List.filter_eq_nil_iff]
    intro x hx
    simpa using (h x hx).2
  have hval : spec_insights_score i = 100 := by
    unfold spec_insights_score
    rw [hc, hw]
    norm_num
  show (component_scores_of a c i l).lookup "insights" = some 100
  rw [component_scores_of_eq]
  obtain ⟨-, -, -, h4⟩ :=
    lookup_components (spec_anomaly_score a c) (spec_connectivity_score c)
      (spec_latency_score l) (spec_insights_score i)
  rw [h4, hval]

/-- Witness for C10: insights carrying severities "high" and "info" only
contribute nothing, yielding an insights score of 100. -/
theorem insights_score_ignores_other_severities_witness :
    (∀ ins ∈ (mkInsights ["high", "info"]).insights,
      ins.severity ≠ "critical" ∧ ins.severity ≠ "warning")
    ∧ (calculate_fleet_health (mkAnomalies 0 []) (mkConnectivity 0 0 0)
        (mkInsights ["high", "info"])
        (mkLatency 0)).component_scores.lookup "insights" = some 100 :=
  ⟨by decide,
   insights_score_ignores_other_severities _ _ _ _ (by decide)⟩

/-! ## Claim C4 — alert rule structure -/

set_option maxHeartbeats 1000000 in
/-- C4.  For every snapshot, `generate_alerts` emits in evaluation order
anomaly, connectivity, latency, quality (the whole list is the
concatenation of its per-domain sublists in that order), each rule fires
at most once, and: a critical anomaly alert fires iff
`by_severity["critical"] > 0` (missing key read as 0) with the critical
count in its title; a critical connectivity alert fires iff
`offline_pct > 20`, else a warning iff `offline_count > 0`, never both;
a critical latency alert fires iff `overall_p95_ms > 1000`, else a
warning iff `overall_p95_ms > 500`, never both; a warning quality alert
fires iff `distribution.poor > 5`. -/
theorem generate_alerts_rule_structure (a : AnomaliesResponse)
    (c : ConnectivityResponse) (l : LatencyResponse) (q : QualityResponse) :
    ((generate_alerts a c l q).filter (fun al => al.alert_type == "anomaly"))
        ++ ((generate_alerts a c l q).filter
              (fun al => al.alert_type == "connectivity"))
        ++ ((generate_alerts a c l q).filter
              (fun al => al.alert_type == "latency"))
        ++ ((generate_alerts a c l q).filter
              (fun al => al.alert_type == "quality"))
      = generate_alerts a c l q
    ∧ ((generate_alerts a c l q).filter
        (fun al => al.alert_type == "anomaly")).length ≤ 1
    ∧ ((generate_alerts a c l q).filter
        (fun al => al.alert_type == "connectivity")).length ≤ 1
    ∧ ((generate_alerts a c l q).filter
        (fun al => al.alert_type == "latency")).length ≤ 1
    ∧ ((generate_alerts a c l q).filter
        (fun al => al.alert_type == "quality")).length ≤ 1
    ∧ ((∃ al ∈ generate_alerts a c l q, al.alert_type = "anomaly"
          ∧ al.level = "critical"
          ∧ al.title = toString ((a.summary.by_severity.lookup "critical").getD 0)
              ++ " Critical Anomalies Detected")
        ↔ ((a.summary.by_severity.lookup "critical").getD 0) > 0)
    ∧ ((∃ al ∈ generate_alerts a c l q, al.alert_type = "connectivity"
          ∧ al.level = "critical")
        ↔ offline_pct_of c > 20)
    ∧ ((∃ al ∈ generate_alerts a c l q, al.alert_type = "connectivity"
          ∧ al.level = "warning")
        ↔ (¬ offline_pct_of c > 20 ∧ c.summary.offline_count > 0))
    ∧ ((∃ al ∈ generate_alerts a c l q, al.alert_type = "latency"
          ∧ al.level = "critical")
        ↔ l.summary.overall_p95_ms > 1000)
    ∧ ((∃ al ∈ generate_alerts a c l q, al.alert_type = "latency"
          ∧ al.level = "warning")
        ↔ (¬ l.summary.overall_p95_ms > 1000 ∧ l.summary.overall_p95_ms > 500))
    ∧ ((∃ al ∈ generate_alerts a c l q, al.alert_type = "quality"
          ∧ al.level = "warning")
        ↔ q.summary.distribution.poor > 5) := by
  simp only [generate_alerts, offline_pct_of]
  split_ifs <;> simp_all +decide [List.filter]

/-! ## Claim C9 — rule independence -/

/-- `generate_alerts` is, definitionally, its four rule segments in
evaluation order. -/
lemma generate_alerts_eq_segments (a : AnomaliesResponse)
    (c : ConnectivityResponse) (l : LatencyResponse) (q : QualityResponse) :
    generate_alerts a c l q =
      anomaly_alerts_of a ++ connectivity_alerts_of c
        ++ latency_alerts_of l ++ quality_alerts_of q := rfl

lemma anomaly_alerts_type (a : AnomaliesResponse) :
    ∀ al ∈ anomaly_alerts_of a, al.alert_type = "anomaly" := by
  intro al hal
  simp only [anomaly_alerts_of] at hal
  split_ifs at hal <;> simp_all

lemma connectivity_alerts_type (c : ConnectivityResponse) :
    ∀ al ∈ connectivity_alerts_of c, al.alert_type = "connectivity" := by
  intro al hal
  simp only [connectivity_alerts_of] at hal
  split_ifs at hal <;> simp_all

lemma latency_alerts_type (l : LatencyResponse) :
    ∀ al ∈ latency_alerts_of l, al.alert_type = "latency" := by
  intro al hal
  simp only [latency_alerts_of] at hal
  split_ifs at hal <;> simp_all

lemma quality_alerts_type (q : QualityResponse) :
    ∀ al ∈ quality_alerts_of q, al.alert_type = "quality" := by
  intro al hal
  simp only [quality_alerts_of] at hal
  split_ifs at hal <;> simp_all

lemma seg_filter_eq_nil {dom : String} {xs : List Alert}
    (hxs : ∀ al ∈ xs, al.alert_type = dom) {d : String} (hd : dom ≠ d) :
    xs.filter (fun al => al.alert_type == d) = [] := by
  rw [List.filter_eq_nil_iff]
  intro al hal
  simp only [hxs al hal, beq_iff_eq]
  exact hd

lemma seg_filter_eq_self {dom : String} {xs : List Alert}
    (hxs : ∀ al ∈ xs, al.alert_type = dom) :
    xs.filter (fun al => al.alert_type == dom) = xs := by
  rw [List.filter_eq_self]
  intro al hal
  simp [hxs al hal]

lemma filter_generate_alerts_anomaly (a : AnomaliesResponse)
    (c : ConnectivityResponse) (l : LatencyResponse) (q : QualityResponse) :
    (generate_alerts a c l q).filter (fun al => al.alert_type == "anomaly")
      = anomaly_alerts_of a := by
  rw [generate_alerts_eq_segments, List.filter_append, List.filter_append,
    List.filter_append, seg_filter_eq_self (anomaly_alerts_type a),
    seg_filter_eq_nil (connectivity_alerts_type c) (by decide),
    seg_filter_eq_nil (latency_alerts_type l) (by decide),
    seg_filter_eq_nil (quality_alerts_type q) (by decide)]
  simp

lemma filter_generate_alerts_connectivity (a : AnomaliesResponse)
    (c : ConnectivityResponse) (l : LatencyResponse) (q : QualityResponse) :
    (generate_alerts a c l q).filter (fun al => al.alert_type == "connectivity")
      = connectivity_alerts_of c := by
  rw [generate_alerts_eq_segments, List.filter_append, List.filter_append,
    List.filter_append, seg_filter_eq_nil (anomaly_alerts_type a) (by decide),
    seg_filter_eq_self (connectivity_alerts_type c),
    seg_filter_eq_nil (latency_alerts_type l) (by decide),
    seg_filter_eq_nil (quality_alerts_type q) (by decide)]
  simp

lemma filter_generate_alerts_latency (a : AnomaliesResponse)
    (c : ConnectivityResponse) (l : LatencyResponse) (q : QualityResponse) :
    (generate_alerts a c l q).filter (fun al => al.alert_type == "latency")
      = latency_alerts_of l := by
  rw [generate_alerts_eq_segments, List.filter_append, List.filter_append,
    List.filter_append, seg_filter_eq_nil (anomaly_alerts_type a) (by decide),
    seg_filter_eq_nil (connectivity_alerts_type c) (by decide),
    seg_filter_eq_self (latency_alerts_type l),
    seg_filter_eq_nil (quality_alerts_type q) (by decide)]
  simp

lemma filter_generate_alerts_quality (a : AnomaliesResponse)
    (c : ConnectivityResponse) (l : LatencyResponse) (q : QualityResponse) :
    (generate_alerts a c l q).filter (fun al => al.alert_type == "quality")
      = quality_alerts_of q := by
  rw [generate_alerts_eq_segments, List.filter_append, List.filter_append,
    List.filter_append, seg_filter_eq_nil (anomaly_alerts_type a) (by decide),
    seg_filter_eq_nil (connectivity_alerts_type c) (by decide),
    seg_filter_eq_nil (latency_alerts_type l) (by decide),
    seg_filter_eq_self (quality_alerts_type q)]
  simp

/-- C9.  Alert rules are independent across domains: two snapshots that
agree on one domain's inputs produce the same alerts (or absence of
alerts) for that domain, regardless of how all other domains' inputs
differ.  Stated for each of the four domains via the domain-filtered
alert list. -/
theorem alert_rules_independent :
    (∀ (a a' : AnomaliesResponse) (c : ConnectivityResponse)
        (l l' : LatencyResponse) (q q' : QualityResponse),
      (generate_alerts a c l q).filter (fun al => al.alert_type == "connectivity")
        = (generate_alerts a' c l' q').filter
            (fun al => al.alert_type == "connectivity"))
    ∧ (∀ (a : AnomaliesResponse) (c c' : ConnectivityResponse)
        (l l' : LatencyResponse) (q q' : QualityResponse),
      (generate_alerts a c l q).filter (fun al => al.alert_type == "anomaly")
        = (generate_alerts a c' l' q').filter
            (fun al => al.alert_type == "anomaly"))
    ∧ (∀ (a a' : AnomaliesResponse) (c c' : ConnectivityResponse)
        (l : LatencyResponse) (q q' : QualityResponse),
      (generate_alerts a c l q).filter (fun al => al.alert_type == "latency")
        = (generate_alerts a' c' l q').filter
            (fun al => al.alert_type == "latency"))
    ∧ (∀ (a a' : AnomaliesResponse) (c c' : ConnectivityResponse)
        (l l' : LatencyResponse) (q : QualityResponse),
      (generate_alerts a c l q).filter (fun al => al.alert_type == "quality")
        = (generate_alerts a' c' l' q).filter
            (fun al => al.alert_type == "quality")) := by
  refine ⟨fun a a' c l l' q q' => ?_, fun a c c' l l' q q' => ?_,
    fun a a' c c' l q q' => ?_, fun a a' c c' l l' q => ?_⟩
  · rw [filter_generate_alerts_connectivity, filter_generate_alerts_connectivity]
  · rw [filter_generate_alerts_anomaly, filter_generate_alerts_anomaly]
  · rw [filter_generate_alerts_latency, filter_generate_alerts_latency]
  · rw [filter_generate_alerts_quality, filter_generate_alerts_quality]

/-! ## Claim C5 — collector all-or-nothing -/

/-- C5 counterexample.  The error propagated by the `tokio::try_join!` in
`collect_dashboard_data` is the failing query's raw `AnalyticsError`; no
`CollectionError` wrapper exists and nothing records which domain failed:
an anomalies-query failure and a latency-query failure with the same
underlying cause produce *identical* collector outputs, so the returned
error cannot identify the failing domain. -/
theorem collect_error_does_not_identify_domain :
    collect_dashboard_data "t" (.error (.api 500 "boom")) (.ok emptyClusters)
        (.ok emptyInsights) (.ok (mkConnectivity 0 0 0)) (.ok (mkLatency 0))
        (.ok emptyThroughput) (.ok (mkQuality 0))
      = collect_dashboard_data "t" (.ok (mkAnomalies 0 [])) (.ok emptyClusters)
        (.ok emptyInsights) (.ok (mkConnectivity 0 0 0))
        (.error (.api 500 "boom")) (.ok emptyThroughput) (.ok (mkQuality 0))
    ∧ collect_dashboard_data "t" (.error (.api 500 "boom")) (.ok emptyClusters)
        (.ok emptyInsights) (.ok (mkConnectivity 0 0 0)) (.ok (mkLatency 0))
        (.ok emptyThroughput) (.ok (mkQuality 0))
      = .error (.api 500 "boom") :=
  ⟨rfl, rfl⟩

set_option maxHeartbeats 1000000 in
/-- C5 (amended).  The collector is all-or-nothing: it succeeds only when
all seven domain queries succeed, and then returns the complete,
consistent snapshot; if any query fails it returns the first error in the
join's evaluation order and no partial snapshot — but the propagated
error is the failing query's underlying `AnalyticsError`, which does not
identify the failing domain. -/
theorem collect_all_or_nothing (ts : String)
    (a : Except AnalyticsError AnomaliesResponse)
    (cl : Except AnalyticsError ClustersResponse)
    (i : Except AnalyticsError InsightsResponse)
    (c : Except AnalyticsError ConnectivityResponse)
    (l : Except AnalyticsError LatencyResponse)
    (t : Except AnalyticsError ThroughputResponse)
    (q : Except AnalyticsError QualityResponse) :
    (∀ d, collect_dashboard_data ts a cl i c l t q = .ok d →
        (a = .ok d.anomalies ∧ cl = .ok d.clusters ∧ i = .ok d.insights
          ∧ c = .ok d.connectivity ∧ l = .ok d.latency ∧ t = .ok d.throughput
          ∧ q = .ok d.quality
          ∧ d.fleet_health = calculate_fleet_health d.anomalies d.connectivity
              d.insights d.latency
          ∧ d.alerts = generate_alerts d.anomalies d.connectivity d.latency
              d.quality
          ∧ d.timestamp = ts))
    ∧ (∀ e, first_query_error a cl i c l t q = some e →
        collect_dashboard_data ts a cl i c l t q = .error e)
    ∧ (first_query_error a cl i c l t q = none →
        ∃ d, collect_dashboard_data ts a cl i c l t q = .ok d) := by
  rcases a with e | av <;> rcases cl with e1 | clv <;> rcases i with e2 | iv <;>
    rcases c with e3 | cv <;> rcases l with e4 | lv <;> rcases t with e5 | tv <;>
    rcases q with e6 | qv <;>
    simp_all [collect_dashboard_data, first_query_error, Except.bind, bind,
      pure, Except.pure]

/-- Witness for the amended C5: a failing latency query propagates its
own error, at concrete inputs. -/
theorem collect_all_or_nothing_witness :
    collect_dashboard_data "t" (.ok (mkAnomalies 0 [])) (.ok emptyClusters)
        (.ok emptyInsights) (.ok (mkConnectivity 0 0 0))
        (.error (.http "timeout")) (.ok emptyThroughput) (.ok (mkQuality 0))
      = .error (.http "timeout") :=
  (collect_all_or_nothing "t" (.ok (mkAnomalies 0 [])) (.ok emptyClusters)
      (.ok emptyInsights) (.ok (mkConnectivity 0 0 0)) (.error (.http "timeout"))
      (.ok emptyThroughput) (.ok (mkQuality 0))).2.1 (.http "timeout") rfl

/-! ## Claim C6 — driver error behaviour -/

/-- C6 counterexample.  In bounded-polling mode an error does *not* leave
the loop polling: the `?` operator inside the `for` loop of `main`
propagates the error and terminates the whole run.  With the first cycle
failing and four subsequent cycles available to succeed, nothing after
the failure is executed. -/
theorem polling_does_not_continue_after_error :
    run_polling [.error (.api 500 "boom"), .ok emptyDashboard,
        .ok emptyDashboard, .ok emptyDashboard, .ok emptyDashboard]
      = ([], some (.api 500 "boom"))
    ∧ (run_polling [.error (.api 500 "boom"), .ok emptyDashboard,
        .ok emptyDashboard, .ok emptyDashboard, .ok emptyDashboard]).1
      ≠ [emptyDashboard, emptyDashboard, emptyDashboard, emptyDashboard] := by
  constructor
  · rfl
  · simp [run_polling]

/-- C6 (amended).  A collection failure terminates the run in both modes:
single-shot mode surfaces the error as a non-zero outcome; in
bounded-polling mode the cycles before the first failure render normally,
the failing cycle's error is surfaced as the run's outcome, and no later
scheduled cycle executes.  Error-free runs render every cycle. -/
theorem driver_error_behaviour :
    (∀ e : AnalyticsError, run_single_shot (.error e) = ([], some e))
    ∧ (∀ d : DashboardData, run_single_shot (.ok d) = ([d], none))
    ∧ (∀ (pre : List DashboardData) (e : AnalyticsError)
        (rest : List (Except AnalyticsError DashboardData)),
        run_polling (pre.map Except.ok ++ .error e :: rest) = (pre, some e))
    ∧ (∀ ds : List DashboardData, run_polling (ds.map Except.ok) = (ds, none)) := by
  refine ⟨fun e => rfl, fun d => rfl, fun pre e rest => ?_, fun ds => ?_⟩
  · induction pre with
    | nil => rfl
    | cons x xs ih => simp [run_polling, ih]
  · induction ds with
    | nil => rfl
    | cons x xs ih => simp [run_polling, ih]
